import Mathlib

/-!
Verification development for the two-phase SRGAN training driver
(src/train.py of nisargshah1999/SRGAN-PyTorch).

The symbolic layer models one iteration of the batch loops in train_psnr and
train_gan, and one iteration of the epoch loops in main_worker, as explicit
event traces over symbolic tensors.  Each module carries a weight version
that is bumped by every optimizer step, so a forward pass records which
weights it used.  The checkpoint resume branches and the StepLR schedule are
modelled directly from the source.

The numeric layer models the gradient content of one train_gan iteration by
forward-mode differentiation over the rationals.  The generator, the
discriminator and the perceptual (VGG) loss are repository code that is not
part of the training driver; following the specification they are treated as
opaque differentiable modules and instantiated by scalar representatives.
The optimizer weight update is kept as a parameter of the semantics, since
the gradient accumulators are independent of the numeric update rule.
-/

namespace SRGAN

/-- Symbolic tensor values appearing in one training iteration.
`genForward v x` is `generator(x)` evaluated at generator weight version `v`;
`discForward v x` is `discriminator(x)` at discriminator weight version `v`;
`detach t` is `t.detach()`; `bce` is `adversarial_criterion` (nn.BCELoss);
`vgg` is `content_criterion` (VGGLoss); `mse` is `pixel_criterion`
(nn.MSELoss); `half t` is `t / 2`; `scale c t` is `c * t`; `meanT t` is
`t.mean()`.  `lowRes` and `highRes` are the batch tensors `lr` and `hr`. -/
inductive Ten where
  | lowRes : Ten
  | highRes : Ten
  | realLabel : Ten
  | fakeLabel : Ten
  | genForward : Nat → Ten → Ten
  | detach : Ten → Ten
  | discForward : Nat → Ten → Ten
  | bce : Ten → Ten → Ten
  | vgg : Ten → Ten → Ten
  | mse : Ten → Ten → Ten
  | add : Ten → Ten → Ten
  | half : Ten → Ten
  | scale : ℚ → Ten → Ten
  | meanT : Ten → Ten
  deriving DecidableEq

/-- Observable operations performed by one iteration of a batch loop, in
program order.  `stepDiscOpt`, `stepGenOpt` and `stepPsnrOpt` are the
`.step()` calls of `discriminator_optimizer`, `generator_optimizer` and
`psnr_optimizer`; `addScalar tag v s` is `writer.add_scalar(tag, v, s)`;
`saveImage` is `vutils.save_image`. -/
inductive Ev where
  | zeroGradDisc : Ev
  | zeroGradGen : Ev
  | genApply : Nat → Ten → Ev
  | discApply : Nat → Ten → Ev
  | backward : Ten → Ev
  | stepDiscOpt : Ev
  | stepGenOpt : Ev
  | stepPsnrOpt : Ev
  | addScalar : String → Ten → Nat → Ev
  | saveImage : String → Ten → Nat → Ev
  deriving DecidableEq

/-- Result of one iteration of the train_gan batch loop. -/
structure GanIter where
  events : List Ev
  dLoss : Ten
  gLoss : Ten
  contentLoss : Ten
  advLoss : Ten
  iters : Nat
  dVerEnd : Nat
  gVerEnd : Nat

/-- One iteration of the batch loop of `train_gan` (src/train.py lines
481-566), at epoch index `epoch`, batch index `i`, with
`numBatches = len(train_dataloader)` and `dv`, `gv` the discriminator and
generator weight versions on entry. -/
def ganIteration (epoch i numBatches dv gv : Nat) : GanIter :=
  -- (1) Update D network (lines 492-515)
  let real_output := Ten.discForward dv Ten.highRes
  let d_loss_real := Ten.bce real_output Ten.realLabel
  let sr := Ten.genForward gv Ten.lowRes
  let fake_output := Ten.discForward dv (Ten.detach sr)
  let d_loss_fake := Ten.bce fake_output Ten.fakeLabel
  let d_loss := Ten.half (Ten.add d_loss_real d_loss_fake)
  -- (2) Update G network (lines 517-534)
  let content_loss := Ten.vgg sr (Ten.detach Ten.highRes)
  let fake_output2 := Ten.discForward (dv + 1) sr
  let adversarial_loss := Ten.bce fake_output2 Ten.realLabel
  let g_loss := Ten.add content_loss (Ten.scale (1 / 1000) adversarial_loss)
  -- logging (lines 549-556) and sample capture (lines 563-566)
  let iters := i + epoch * numBatches + 1
  let stageA : List Ev :=
    [Ev.zeroGradDisc,
     Ev.discApply dv Ten.highRes,
     Ev.genApply gv Ten.lowRes,
     Ev.discApply dv (Ten.detach sr),
     Ev.backward d_loss,
     Ev.stepDiscOpt]
  let stageB : List Ev :=
    [Ev.zeroGradGen,
     Ev.discApply (dv + 1) sr,
     Ev.backward g_loss,
     Ev.stepGenOpt]
  let logs : List Ev :=
    [Ev.addScalar "Train/D Loss" d_loss iters,
     Ev.addScalar "Train/G Loss" d_loss iters,
     Ev.addScalar "Train/Content Loss" content_loss iters,
     Ev.addScalar "Train/Adversarial Loss" adversarial_loss iters,
     Ev.addScalar "Train/D(LR)" (Ten.meanT real_output) iters,
     Ev.addScalar "Train/D(SR1)" (Ten.meanT fake_output) iters,
     Ev.addScalar "Train/D(SR2)" (Ten.meanT fake_output2) iters]
  let capture : List Ev :=
    if iters % 1000 = 0 then
      [Ev.saveImage "runs/hr/GAN" Ten.highRes iters,
       Ev.genApply (gv + 1) Ten.lowRes,
       Ev.saveImage "runs/sr/GAN" (Ten.detach (Ten.genForward (gv + 1) Ten.lowRes)) iters]
    else []
  { events := stageA ++ stageB ++ logs ++ capture
    dLoss := d_loss
    gLoss := g_loss
    contentLoss := content_loss
    advLoss := adversarial_loss
    iters := iters
    dVerEnd := dv + 1
    gVerEnd := gv + 1 }

/-- Result of one iteration of the train_psnr batch loop. -/
structure PsnrIter where
  events : List Ev
  mseLoss : Ten
  iters : Nat
  gVerEnd : Nat

/-- One iteration of the batch loop of `train_psnr` (src/train.py lines
413-446), at epoch index `epoch`, batch index `i`, with
`numBatches = len(train_dataloader)` and `gv` the generator weight version
on entry. -/
def psnrIteration (epoch i numBatches gv : Nat) : PsnrIter :=
  let sr := Ten.genForward gv Ten.lowRes
  let mse_loss := Ten.mse sr Ten.highRes
  let iters := i + epoch * numBatches + 1
  let capture : List Ev :=
    if iters % 1000 = 0 then
      [Ev.saveImage "runs/hr/PSNR" Ten.highRes iters,
       Ev.genApply (gv + 1) Ten.lowRes,
       Ev.saveImage "runs/sr/PSNR" (Ten.detach (Ten.genForward (gv + 1) Ten.lowRes)) iters]
    else []
  { events :=
      [Ev.zeroGradGen,
       Ev.genApply gv Ten.lowRes,
       Ev.backward mse_loss,
       Ev.stepPsnrOpt,
       Ev.addScalar "Train/MSE Loss" mse_loss iters] ++ capture
    mseLoss := mse_loss
    iters := iters
    gVerEnd := gv + 1 }

/-- Checkpoint file paths written or read by `main_worker`.  `psnrBest` is
the fixed path weights/PSNR.pth (line 356); `psnrEpoch e` is
weights/PSNR_epoch followed by `e` and .pth (line 353); `discEpoch e` and
`genEpoch e` are the per-epoch discriminator and generator paths (lines 390
and 395).  The constructors are distinct exactly as the path strings are. -/
inductive CkPath where
  | psnrBest : CkPath
  | psnrEpoch : Nat → CkPath
  | discEpoch : Nat → CkPath
  | genEpoch : Nat → CkPath
  deriving DecidableEq

/-- Observable steps of one iteration of an epoch loop in `main_worker`. -/
inductive PhaseEv where
  | setEpochSampler : Nat → PhaseEv
  | trainPsnrEpoch : Nat → PhaseEv
  | trainGanEpoch : Nat → PhaseEv
  | schedulerStepDisc : PhaseEv
  | schedulerStepGen : PhaseEv
  | evalTest : Nat → PhaseEv
  | addTestScalar : String → Nat → PhaseEv
  | saveCkpt : CkPath → Nat → PhaseEv
  | loadGenerator : CkPath → PhaseEv
  deriving DecidableEq

/-- Event trace of one iteration of the GAN epoch loop in `main_worker`
(src/train.py lines 358-395).  `dist` is `args.distributed`; `saveGate` is
the rank gate of lines 384-385.  The source order is: train_gan (line 363),
both scheduler steps (lines 374-375), test (line 378), four test scalars
(lines 379-382), then the gated checkpoint saves (lines 386-395). -/
def ganEpochEvents (e : Nat) (dist saveGate : Bool) : List PhaseEv :=
  (if dist then [PhaseEv.setEpochSampler e] else []) ++
  [PhaseEv.trainGanEpoch e,
   PhaseEv.schedulerStepDisc,
   PhaseEv.schedulerStepGen,
   PhaseEv.evalTest e,
   PhaseEv.addTestScalar "Test/PSNR" (e + 1),
   PhaseEv.addTestScalar "Test/SSIM" (e + 1),
   PhaseEv.addTestScalar "Test/LPIPS" (e + 1),
   PhaseEv.addTestScalar "Test/GMSD" (e + 1)] ++
  (if saveGate then
    [PhaseEv.saveCkpt (CkPath.discEpoch e) (e + 1),
     PhaseEv.saveCkpt (CkPath.genEpoch e) (e + 1)]
   else [])

/-- Driver state for the PSNR epoch loop: the generator weight blob (an
opaque token) and the checkpoint filesystem, mapping a path to the blob
stored there (`none` when no file exists at that path). -/
structure DriverSt where
  genW : Nat
  fs : CkPath → Option Nat

/-- One iteration of the PSNR epoch loop of `main_worker` (src/train.py
lines 327-356): train for one epoch (`tr` is the net effect of train_psnr on
the generator weights), test, save weights/PSNR_epoch followed by the epoch
index when the rank gate `saveGate` passes (lines 347-353), then
unconditionally reload the generator from the fixed path weights/PSNR.pth
(line 356).  `torch.load` raises on a missing file, which aborts the run;
this is the `Except.error` case, carrying the missing path. -/
def psnrEpochStep (tr : Nat → Nat) (saveGate : Bool) (e : Nat) (st : DriverSt) :
    Except CkPath (DriverSt × List PhaseEv) :=
  let genW1 := tr st.genW
  let fs1 : CkPath → Option Nat :=
    if saveGate then
      fun p => if p = CkPath.psnrEpoch e then some genW1 else st.fs p
    else st.fs
  match fs1 CkPath.psnrBest with
  | none => Except.error CkPath.psnrBest
  | some w =>
      Except.ok
        ({ genW := w, fs := fs1 },
         [PhaseEv.trainPsnrEpoch e,
          PhaseEv.evalTest e,
          PhaseEv.addTestScalar "Test/PSNR" (e + 1),
          PhaseEv.addTestScalar "Test/SSIM" (e + 1),
          PhaseEv.addTestScalar "Test/LPIPS" (e + 1),
          PhaseEv.addTestScalar "Test/GMSD" (e + 1)] ++
         (if saveGate then [PhaseEv.saveCkpt (CkPath.psnrEpoch e) (e + 1)] else []) ++
         [PhaseEv.loadGenerator CkPath.psnrBest])

/-- The PSNR epoch loop `for epoch in range(start_psnr_epoch, psnr_epochs)`
(src/train.py line 327), with `n` the number of remaining epochs.  The run
aborts at the first failing epoch. -/
def psnrPhaseAux (tr : Nat → Nat) (saveGate : Bool) :
    Nat → Nat → DriverSt → Except CkPath DriverSt
  | _, 0, st => Except.ok st
  | e, Nat.succ n, st =>
      match psnrEpochStep tr saveGate e st with
      | Except.error p => Except.error p
      | Except.ok (st1, _) => psnrPhaseAux tr saveGate (e + 1) n st1

/-- A checkpoint record as saved by `main_worker`: epoch index, architecture
tag, model weights and optimizer state (the two blobs are opaque tokens). -/
structure Ckpt where
  epoch : Nat
  arch : String
  state_dict : Nat
  optimizer : Nat
  deriving DecidableEq

/-- The mutable resume-relevant state of `main_worker`: the two epoch start
offsets, the module weights and the three optimizer states. -/
structure ResumeSt where
  start_psnr_epoch : Nat
  start_gan_epoch : Nat
  genW : Nat
  discW : Nat
  psnrOptSt : Nat
  discOptSt : Nat
  genOptSt : Nat
  deriving DecidableEq

/-- The PSNR resume branch of `main_worker` (src/train.py lines 281-294).
`resume_psnr = ""` means the flag was not supplied (python truthiness of the
empty string); `fs p = some c` means a checkpoint file with contents `c`
exists at path `p` (`os.path.isfile` is `fs p` being `some`).  On a missing
file the branch only logs a message and leaves the state untouched. -/
def resumePsnr (resume_psnr : String) (fs : String → Option Ckpt) (st : ResumeSt) :
    ResumeSt × List String :=
  if resume_psnr = "" then (st, [])
  else
    match fs resume_psnr with
    | some c =>
        ({ st with
            start_psnr_epoch := c.epoch,
            genW := c.state_dict,
            psnrOptSt := c.optimizer },
         ["Loading checkpoint " ++ resume_psnr,
          "Loaded checkpoint " ++ resume_psnr])
    | none => (st, ["No checkpoint found at " ++ resume_psnr])

/-- The GAN resume branch of `main_worker` (src/train.py lines 296-315).
The outer guard is the python truthiness test `if args.resume_d or
args.resume_g`; the inner guard is `if os.path.isfile(args.resume_d) or
os.path.isfile(args.resume_g)`.  Inside, `torch.load` is called on both
paths with no per-file existence check; a load of a missing file raises
FileNotFoundError, modelled as `Except.error` carrying the missing path.
When both loads succeed, `start_gan_epoch` is set from the epoch field of
the discriminator checkpoint (line 307). -/
def resumeGan (resume_d resume_g : String) (fs : String → Option Ckpt) (st : ResumeSt) :
    Except String (ResumeSt × List String) :=
  if resume_d ≠ "" ∨ resume_g ≠ "" then
    if fs resume_d ≠ none ∨ fs resume_g ≠ none then
      match fs resume_d with
      | none => Except.error resume_d
      | some cd =>
          match fs resume_g with
          | none => Except.error resume_g
          | some cg =>
              Except.ok
                ({ st with
                    start_gan_epoch := cd.epoch,
                    discW := cd.state_dict,
                    discOptSt := cd.optimizer,
                    genW := cg.state_dict,
                    genOptSt := cg.optimizer },
                 ["Loading checkpoint " ++ resume_d,
                  "Loading checkpoint " ++ resume_g,
                  "Loaded checkpoint " ++ resume_d,
                  "Loaded checkpoint " ++ resume_g])
    else
      Except.ok (st, ["No checkpoint found at " ++ resume_d ++ " or " ++ resume_g])
  else Except.ok (st, [])

/-- torch.optim.lr_scheduler.StepLR(optimizer, step_size, gamma): the
learning rate after `k` scheduler steps is the initial rate times
gamma to the power `k / stepSize` (integer division).  This is the closed
form of the torch decay rule; it is valid at every point the program has
reached without raising (with step_size 0, torch raises inside the first
`.step()` call, after the rate has been observed equal to the initial rate
at zero completed steps). -/
def stepLRAt (initLr gamma : ℚ) (stepSize k : Nat) : ℚ :=
  initLr * gamma ^ (k / stepSize)

/-- Learning rate of `discriminator_optimizer` after `k` completed GAN
epochs: the scheduler is constructed on line 227 with step size
`args.gan_epochs // 2` and gamma 0.1, and stepped once per completed GAN
epoch (line 374). -/
def discriminatorLrAfter (ganEpochs : Nat) (ganLr : ℚ) (k : Nat) : ℚ :=
  stepLRAt ganLr (1 / 10) (ganEpochs / 2) k

/-- Learning rate of `generator_optimizer` after `k` completed GAN epochs:
the scheduler is constructed on line 228 with step size
`args.gan_epochs // 2` and gamma 0.1, and stepped once per completed GAN
epoch (line 375). -/
def generatorLrAfter (ganEpochs : Nat) (ganLr : ℚ) (k : Nat) : ℚ :=
  stepLRAt ganLr (1 / 10) (ganEpochs / 2) k

/-- Forward-mode dual scalar: a value together with its derivatives with
respect to the generator parameter (`dg`) and the discriminator parameter
(`dd`).  Modelled from the spec: the generator and the discriminator are
opaque differentiable function objects (their code lives outside the
training driver), represented here with one scalar parameter each. -/
structure Dual where
  val : ℚ
  dg : ℚ
  dd : ℚ
  deriving DecidableEq

/-- Gradient of a scalar loss with respect to the two parameters.  The loss
value itself is never consumed by backpropagation (for BCELoss it is
transcendental), so loss nodes carry only the two derivatives. -/
structure LGrad where
  dg : ℚ
  dd : ℚ
  deriving DecidableEq

/-- A constant tensor (an input batch or a label): no parameter enters it. -/
def constD (c : ℚ) : Dual := ⟨c, 0, 0⟩

/-- Product with the product rule; the scalar representatives of the
generator and the discriminator are `w * x`, so each forward pass is one
`dmul` of the parameter dual with the input dual. -/
def dmul (a b : Dual) : Dual :=
  ⟨a.val * b.val, a.dg * b.val + a.val * b.dg, a.dd * b.val + a.val * b.dd⟩

/-- `t.detach()`: same value, all derivatives severed. -/
def detachD (t : Dual) : Dual := ⟨t.val, 0, 0⟩

/-- nn.BCELoss at output `o` against constant target `t`: the derivative of
the loss with respect to `o` is `(o - t) / (o * (1 - o))`, composed with the
derivatives of `o` by the chain rule. -/
def bceGrad (o : Dual) (t : ℚ) : LGrad :=
  ⟨(o.val - t) / (o.val * (1 - o.val)) * o.dg,
   (o.val - t) / (o.val * (1 - o.val)) * o.dd⟩

/-- Modelled from the spec: VGGLoss (the perceptual feature distance, code
outside the training driver) represented by the squared distance, whose
derivative in the first argument is `2 * (a - b)`; the second argument is
the detached target, a constant. -/
def vggGrad (a : Dual) (b : ℚ) : LGrad :=
  ⟨2 * (a.val - b) * a.dg, 2 * (a.val - b) * a.dd⟩

/-- Sum of two scalar losses. -/
def addG (x y : LGrad) : LGrad := ⟨x.dg + y.dg, x.dd + y.dd⟩

/-- Scalar loss divided by 2. -/
def halfG (x : LGrad) : LGrad := ⟨x.dg / 2, x.dd / 2⟩

/-- Scalar loss times a constant. -/
def scaleG (c : ℚ) (x : LGrad) : LGrad := ⟨c * x.dg, c * x.dd⟩

/-- Numeric training state: the generator and discriminator parameters and
their gradient accumulators (`.grad` of the two modules). -/
structure NumSt where
  gw : ℚ
  dw : ℚ
  gGrad : ℚ
  dGrad : ℚ
  deriving DecidableEq

/-- Stage A of one train_gan iteration (src/train.py lines 492-515) over the
numeric model: zero the discriminator gradients, score the real batch, score
the detached super-resolved batch, backpropagate the combined discriminator
loss (the backward pass accumulates into the gradient accumulators of every
parameter reached by the graph), then apply the discriminator optimizer
update `dUpd` (current weight and accumulated gradient to new weight). -/
def ganStageA (dUpd : ℚ → ℚ → ℚ) (lrv hrv : ℚ) (s : NumSt) : NumSt :=
  let gwD : Dual := ⟨s.gw, 1, 0⟩
  let dwD : Dual := ⟨s.dw, 0, 1⟩
  let dGrad0 : ℚ := 0
  let real_output := dmul dwD (constD hrv)
  let d_loss_real := bceGrad real_output 1
  let sr := dmul gwD (constD lrv)
  let fake_output := dmul dwD (detachD sr)
  let d_loss_fake := bceGrad fake_output 0
  let d_loss := halfG (addG d_loss_real d_loss_fake)
  let dGrad1 := dGrad0 + d_loss.dd
  let gGrad1 := s.gGrad + d_loss.dg
  let dw1 := dUpd s.dw dGrad1
  { gw := s.gw, dw := dw1, gGrad := gGrad1, dGrad := dGrad1 }

/-- Stage B of one train_gan iteration (src/train.py lines 517-534) over the
numeric model: zero the generator gradients, compute the content loss of the
super-resolved batch (the tensor from Stage A, its graph intact) against the
detached target, re-score the same tensor through the discriminator without
detaching, backpropagate the combined generator loss, then apply the
generator optimizer update `gUpd`. -/
def ganStageB (gUpd : ℚ → ℚ → ℚ) (lrv hrv : ℚ) (s : NumSt) : NumSt :=
  let gwD : Dual := ⟨s.gw, 1, 0⟩
  let dwD1 : Dual := ⟨s.dw, 0, 1⟩
  let sr := dmul gwD (constD lrv)
  let gGrad0 : ℚ := 0
  let content_loss := vggGrad sr hrv
  let fake_output := dmul dwD1 sr
  let adversarial_loss := bceGrad fake_output 1
  let g_loss := addG content_loss (scaleG (1 / 1000) adversarial_loss)
  let gGrad1 := gGrad0 + g_loss.dg
  let dGrad1 := s.dGrad + g_loss.dd
  let gw1 := gUpd s.gw gGrad1
  { gw := gw1, dw := s.dw, gGrad := gGrad1, dGrad := dGrad1 }

/-- One full train_gan iteration over the numeric model: Stage A then
Stage B. -/
def ganIterNum (dUpd gUpd : ℚ → ℚ → ℚ) (lrv hrv : ℚ) (s : NumSt) : NumSt :=
  ganStageB gUpd lrv hrv (ganStageA dUpd lrv hrv s)

/-- The exact first step of torch.optim.Adam from a fresh optimizer state
with the default hyperparameters used on lines 225-226 (learning rate
`args.gan_lr` default 1e-4, eps 1e-8): after one step the bias-corrected
moments are `g` and `g ^ 2`, so the update is
`w - lr * g / (|g| + eps)`, an exact rational.  Later steps of real Adam
involve a square root; the theorems below never depend on the weight values
such a later update produces. -/
def adamFirstStep (w g : ℚ) : ℚ :=
  w - (1 / 10000) * g / (|g| + 1 / 100000000)

/-- Helper: every entry of the event trace of one train_gan iteration, with
its position.  The first seventeen positions are unconditional; the capture
entries exist only when the gate of line 563 fires. -/
theorem ganIteration_events_index (epoch i numBatches dv gv k : Nat) (x : Ev)
    (h : (ganIteration epoch i numBatches dv gv).events[k]? = some x) :
    (k = 0 ∧ x = Ev.zeroGradDisc) ∨
    (k = 1 ∧ x = Ev.discApply dv Ten.highRes) ∨
    (k = 2 ∧ x = Ev.genApply gv Ten.lowRes) ∨
    (k = 3 ∧ x = Ev.discApply dv (Ten.detach (Ten.genForward gv Ten.lowRes))) ∨
    (k = 4 ∧ x = Ev.backward (ganIteration epoch i numBatches dv gv).dLoss) ∨
    (k = 5 ∧ x = Ev.stepDiscOpt) ∨
    (k = 6 ∧ x = Ev.zeroGradGen) ∨
    (k = 7 ∧ x = Ev.discApply (dv + 1) (Ten.genForward gv Ten.lowRes)) ∨
    (k = 8 ∧ x = Ev.backward (ganIteration epoch i numBatches dv gv).gLoss) ∨
    (k = 9 ∧ x = Ev.stepGenOpt) ∨
    (k = 10 ∧ x = Ev.addScalar "Train/D Loss"
      (ganIteration epoch i numBatches dv gv).dLoss (i + epoch * numBatches + 1)) ∨
    (k = 11 ∧ x = Ev.addScalar "Train/G Loss"
      (ganIteration epoch i numBatches dv gv).dLoss (i + epoch * numBatches + 1)) ∨
    (k = 12 ∧ x = Ev.addScalar "Train/Content Loss"
      (ganIteration epoch i numBatches dv gv).contentLoss (i + epoch * numBatches + 1)) ∨
    (k = 13 ∧ x = Ev.addScalar "Train/Adversarial Loss"
      (ganIteration epoch i numBatches dv gv).advLoss (i + epoch * numBatches + 1)) ∨
    (k = 14 ∧ x = Ev.addScalar "Train/D(LR)"
      (Ten.meanT (Ten.discForward dv Ten.highRes)) (i + epoch * numBatches + 1)) ∨
    (k = 15 ∧ x = Ev.addScalar "Train/D(SR1)"
      (Ten.meanT (Ten.discForward dv (Ten.detach (Ten.genForward gv Ten.lowRes))))
      (i + epoch * numBatches + 1)) ∨
    (k = 16 ∧ x = Ev.addScalar "Train/D(SR2)"
      (Ten.meanT (Ten.discForward (dv + 1) (Ten.genForward gv Ten.lowRes)))
      (i + epoch * numBatches + 1)) ∨
    ((i + epoch * numBatches + 1) % 1000 = 0 ∧
      (x = Ev.saveImage "runs/hr/GAN" Ten.highRes (i + epoch * numBatches + 1) ∨
       x = Ev.genApply (gv + 1) Ten.lowRes ∨
       x = Ev.saveImage "runs/sr/GAN"
         (Ten.detach (Ten.genForward (gv + 1) Ten.lowRes)) (i + epoch * numBatches + 1))) := by
  rcases k with _|_|_|_|_|_|_|_|_|_|_|_|_|_|_|_|_|k <;>
    simp only [ganIteration] at h <;> (try split_ifs at h) <;>
    (try rcases k with _|_|_|k) <;> simp_all [ganIteration]

/-- Helper: every entry of the event trace of one train_psnr iteration,
with its position. -/
theorem psnrIteration_events_index (epoch i numBatches gv k : Nat) (x : Ev)
    (h : (psnrIteration epoch i numBatches gv).events[k]? = some x) :
    (k = 0 ∧ x = Ev.zeroGradGen) ∨
    (k = 1 ∧ x = Ev.genApply gv Ten.lowRes) ∨
    (k = 2 ∧ x = Ev.backward (Ten.mse (Ten.genForward gv Ten.lowRes) Ten.highRes)) ∨
    (k = 3 ∧ x = Ev.stepPsnrOpt) ∨
    (k = 4 ∧ x = Ev.addScalar "Train/MSE Loss"
      (Ten.mse (Ten.genForward gv Ten.lowRes) Ten.highRes) (i + epoch * numBatches + 1)) ∨
    ((i + epoch * numBatches + 1) % 1000 = 0 ∧
      (x = Ev.saveImage "runs/hr/PSNR" Ten.highRes (i + epoch * numBatches + 1) ∨
       x = Ev.genApply (gv + 1) Ten.lowRes ∨
       x = Ev.saveImage "runs/sr/PSNR"
         (Ten.detach (Ten.genForward (gv + 1) Ten.lowRes)) (i + epoch * numBatches + 1))) := by
  rcases k with _|_|_|_|_|k <;>
    simp only [psnrIteration] at h <;> (try split_ifs at h) <;>
    (try rcases k with _|_|_|k) <;> simp_all [psnrIteration]

/-- C1: in every GAN training iteration, the discriminator optimizer step
occurs strictly before Stage B re-scores the same super-resolved tensor
through the discriminator, and every scoring of the non-detached
super-resolved tensor uses the discriminator weight version produced by the
Stage A optimizer step. -/
theorem gan_step_disc_update_before_stage_b_scoring (epoch i numBatches dv gv : Nat) :
    ∃ j k : Nat, j < k ∧
      (ganIteration epoch i numBatches dv gv).events[j]? = some Ev.stepDiscOpt ∧
      (ganIteration epoch i numBatches dv gv).events[k]? =
        some (Ev.discApply (dv + 1) (Ten.genForward gv Ten.lowRes)) ∧
      ∀ (k2 ver : Nat),
        (ganIteration epoch i numBatches dv gv).events[k2]? =
          some (Ev.discApply ver (Ten.genForward gv Ten.lowRes)) →
        j < k2 ∧ ver = dv + 1 := by
  refine ⟨5, 7, by omega, rfl, rfl, ?_⟩
  intro k2 ver h
  have hx := ganIteration_events_index epoch i numBatches dv gv k2 _ h
  rcases hx with ⟨hk, hx⟩|⟨hk, hx⟩|⟨hk, hx⟩|⟨hk, hx⟩|⟨hk, hx⟩|⟨hk, hx⟩|⟨hk, hx⟩|⟨hk, hx⟩|
    ⟨hk, hx⟩|⟨hk, hx⟩|⟨hk, hx⟩|⟨hk, hx⟩|⟨hk, hx⟩|⟨hk, hx⟩|⟨hk, hx⟩|⟨hk, hx⟩|⟨hk, hx⟩|
    ⟨hk, hx⟩ <;> simp_all

/-- C3: in every GAN training iteration, the discriminator loss
backpropagated in Stage A is the mean of the adversarial losses of the real
batch against the real label and of the detached super-resolved batch
against the fake label, the generator loss backpropagated in Stage B is the
content loss plus 0.001 times the adversarial loss of the non-detached
super-resolved batch against the real label, each backward pass is followed
by the step of the corresponding optimizer, and each optimizer steps exactly
once. -/
theorem gan_step_loss_protocol (epoch i numBatches dv gv : Nat) :
    (ganIteration epoch i numBatches dv gv).dLoss =
      Ten.half (Ten.add
        (Ten.bce (Ten.discForward dv Ten.highRes) Ten.realLabel)
        (Ten.bce (Ten.discForward dv (Ten.detach (Ten.genForward gv Ten.lowRes)))
          Ten.fakeLabel)) ∧
    (ganIteration epoch i numBatches dv gv).gLoss =
      Ten.add (ganIteration epoch i numBatches dv gv).contentLoss
        (Ten.scale (1 / 1000)
          (Ten.bce (Ten.discForward (dv + 1) (Ten.genForward gv Ten.lowRes))
            Ten.realLabel)) ∧
    (ganIteration epoch i numBatches dv gv).events[4]? =
      some (Ev.backward (ganIteration epoch i numBatches dv gv).dLoss) ∧
    (ganIteration epoch i numBatches dv gv).events[5]? = some Ev.stepDiscOpt ∧
    (ganIteration epoch i numBatches dv gv).events[8]? =
      some (Ev.backward (ganIteration epoch i numBatches dv gv).gLoss) ∧
    (ganIteration epoch i numBatches dv gv).events[9]? = some Ev.stepGenOpt ∧
    (∀ k : Nat,
      (ganIteration epoch i numBatches dv gv).events[k]? = some Ev.stepDiscOpt →
      k = 5) ∧
    (∀ k : Nat,
      (ganIteration epoch i numBatches dv gv).events[k]? = some Ev.stepGenOpt →
      k = 9) := by
  refine ⟨rfl, rfl, rfl, rfl, rfl, rfl, ?_, ?_⟩ <;>
    · intro k h
      have hx := ganIteration_events_index epoch i numBatches dv gv k _ h
      rcases hx with ⟨hk, hx⟩|⟨hk, hx⟩|⟨hk, hx⟩|⟨hk, hx⟩|⟨hk, hx⟩|⟨hk, hx⟩|⟨hk, hx⟩|
        ⟨hk, hx⟩|⟨hk, hx⟩|⟨hk, hx⟩|⟨hk, hx⟩|⟨hk, hx⟩|⟨hk, hx⟩|⟨hk, hx⟩|⟨hk, hx⟩|
        ⟨hk, hx⟩|⟨hk, hx⟩|⟨hk, hx⟩ <;> simp_all

/-- C8: in every GAN training iteration, the scalar written to the
Train/G Loss series is the value of d_loss, the same value written to the
Train/D Loss series, and not the computed generator loss g_loss. -/
theorem g_loss_series_logs_d_loss (epoch i numBatches dv gv : Nat) :
    (ganIteration epoch i numBatches dv gv).events[11]? =
      some (Ev.addScalar "Train/G Loss" (ganIteration epoch i numBatches dv gv).dLoss
        (ganIteration epoch i numBatches dv gv).iters) ∧
    (ganIteration epoch i numBatches dv gv).events[10]? =
      some (Ev.addScalar "Train/D Loss" (ganIteration epoch i numBatches dv gv).dLoss
        (ganIteration epoch i numBatches dv gv).iters) ∧
    (∀ (k : Nat) (v : Ten) (s : Nat),
      (ganIteration epoch i numBatches dv gv).events[k]? =
        some (Ev.addScalar "Train/G Loss" v s) →
      v = (ganIteration epoch i numBatches dv gv).dLoss) ∧
    (ganIteration epoch i numBatches dv gv).dLoss ≠
      (ganIteration epoch i numBatches dv gv).gLoss := by
  refine ⟨rfl, rfl, ?_, by simp [ganIteration]⟩
  intro k v s h
  have hx := ganIteration_events_index epoch i numBatches dv gv k _ h
  rcases hx with ⟨hk, hx⟩|⟨hk, hx⟩|⟨hk, hx⟩|⟨hk, hx⟩|⟨hk, hx⟩|⟨hk, hx⟩|⟨hk, hx⟩|⟨hk, hx⟩|
    ⟨hk, hx⟩|⟨hk, hx⟩|⟨hk, hx⟩|⟨hk, hx⟩|⟨hk, hx⟩|⟨hk, hx⟩|⟨hk, hx⟩|⟨hk, hx⟩|⟨hk, hx⟩|
    ⟨hk, hx⟩ <;> simp_all

/-- C6: in both phases, every batch logs its scalars against the global
iteration counter `batch_index + epoch_index * batches_per_epoch + 1`, the
sample-capture gate fires exactly when that counter is divisible by 1000,
and the counter is strictly increasing over consecutive batches, including
across an epoch boundary. -/
theorem global_iteration_counter (epoch i numBatches dv gv : Nat) :
    (psnrIteration epoch i numBatches gv).iters = i + epoch * numBatches + 1 ∧
    (ganIteration epoch i numBatches dv gv).iters = i + epoch * numBatches + 1 ∧
    (∀ (tag : String) (v : Ten) (s : Nat),
      Ev.addScalar tag v s ∈ (psnrIteration epoch i numBatches gv).events →
      s = i + epoch * numBatches + 1) ∧
    (∀ (tag : String) (v : Ten) (s : Nat),
      Ev.addScalar tag v s ∈ (ganIteration epoch i numBatches dv gv).events →
      s = i + epoch * numBatches + 1) ∧
    (∀ (tag : String) (v : Ten) (s : Nat),
      Ev.saveImage tag v s ∈ (ganIteration epoch i numBatches dv gv).events →
      s = i + epoch * numBatches + 1 ∧ s % 1000 = 0) ∧
    (∀ (tag : String) (v : Ten) (s : Nat),
      Ev.saveImage tag v s ∈ (psnrIteration epoch i numBatches gv).events →
      s = i + epoch * numBatches + 1 ∧ s % 1000 = 0) ∧
    (ganIteration epoch (i + 1) numBatches dv gv).iters =
      (ganIteration epoch i numBatches dv gv).iters + 1 ∧
    (i + 1 = numBatches →
      (ganIteration (epoch + 1) 0 numBatches dv gv).iters =
        (ganIteration epoch i numBatches dv gv).iters + 1) ∧
    (psnrIteration epoch (i + 1) numBatches gv).iters =
      (psnrIteration epoch i numBatches gv).iters + 1 ∧
    (i + 1 = numBatches →
      (psnrIteration (epoch + 1) 0 numBatches gv).iters =
        (psnrIteration epoch i numBatches gv).iters + 1) := by
  refine ⟨rfl, rfl, ?_, ?_, ?_, ?_, by simp only [ganIteration]; omega, ?_,
    by simp only [psnrIteration]; omega, ?_⟩
  · intro tag v s h
    obtain ⟨k, hk⟩ := List.getElem?_of_mem h
    have hx := psnrIteration_events_index epoch i numBatches gv k _ hk
    rcases hx with ⟨h1, h2⟩|⟨h1, h2⟩|⟨h1, h2⟩|⟨h1, h2⟩|⟨h1, h2⟩|⟨h1, h2 | h2 | h2⟩ <;>
      simp_all
  · intro tag v s h
    obtain ⟨k, hk⟩ := List.getElem?_of_mem h
    have hx := ganIteration_events_index epoch i numBatches dv gv k _ hk
    rcases hx with ⟨h1, h2⟩|⟨h1, h2⟩|⟨h1, h2⟩|⟨h1, h2⟩|⟨h1, h2⟩|⟨h1, h2⟩|⟨h1, h2⟩|⟨h1, h2⟩|
      ⟨h1, h2⟩|⟨h1, h2⟩|⟨h1, h2⟩|⟨h1, h2⟩|⟨h1, h2⟩|⟨h1, h2⟩|⟨h1, h2⟩|⟨h1, h2⟩|⟨h1, h2⟩|
      ⟨h1, h2 | h2 | h2⟩ <;> simp_all
  · intro tag v s h
    obtain ⟨k, hk⟩ := List.getElem?_of_mem h
    have hx := ganIteration_events_index epoch i numBatches dv gv k _ hk
    rcases hx with ⟨h1, h2⟩|⟨h1, h2⟩|⟨h1, h2⟩|⟨h1, h2⟩|⟨h1, h2⟩|⟨h1, h2⟩|⟨h1, h2⟩|⟨h1, h2⟩|
      ⟨h1, h2⟩|⟨h1, h2⟩|⟨h1, h2⟩|⟨h1, h2⟩|⟨h1, h2⟩|⟨h1, h2⟩|⟨h1, h2⟩|⟨h1, h2⟩|⟨h1, h2⟩|
      ⟨h1, h2 | h2 | h2⟩ <;> simp_all
  · intro tag v s h
    obtain ⟨k, hk⟩ := List.getElem?_of_mem h
    have hx := psnrIteration_events_index epoch i numBatches gv k _ hk
    rcases hx with ⟨h1, h2⟩|⟨h1, h2⟩|⟨h1, h2⟩|⟨h1, h2⟩|⟨h1, h2⟩|⟨h1, h2 | h2 | h2⟩ <;>
      simp_all
  · intro h
    simp only [ganIteration, Nat.succ_mul]
    omega
  · intro h
    simp only [psnrIteration, Nat.succ_mul]
    omega

/-- Witness for C6 at a concrete input, including the epoch-boundary case
with batch index 4 the last of a 5-batch epoch. -/
theorem global_iteration_counter_witness :
    (ganIteration 1 0 5 0 0).iters = 0 + 1 * 5 + 1 ∧
    (ganIteration (0 + 1) 0 5 0 0).iters = (ganIteration 0 4 5 0 0).iters + 1 ∧
    (psnrIteration (0 + 1) 0 5 0).iters = (psnrIteration 0 4 5 0).iters + 1 :=
  ⟨(global_iteration_counter 1 0 5 0 0).2.1,
   (global_iteration_counter 0 4 5 0 0).2.2.2.2.2.2.2.1 rfl,
   (global_iteration_counter 0 4 5 0 0).2.2.2.2.2.2.2.2.2 rfl⟩

/-- C2 (amended): the backward pass of Stage A contributes nothing to the
generator gradient accumulators, because the super-resolved image is
detached before it is fed to the discriminator: for every optimizer update
rule, every batch and every entry state, the generator gradient accumulator
immediately after Stage A (optimizer step included) equals its value
immediately before Stage A.  It is zero after the first Stage A of a run,
but on later iterations it still holds the generator-loss gradients of the
previous iteration (these are only cleared at the start of Stage B). -/
theorem gan_stage_a_preserves_generator_grad (dUpd : ℚ → ℚ → ℚ) (lrv hrv : ℚ)
    (s : NumSt) :
    (ganStageA dUpd lrv hrv s).gGrad = s.gGrad := by
  simp [ganStageA, dmul, detachD, constD, bceGrad, addG, halfG]

/-- C2 counterexample: running one full GAN iteration from a fresh state
(zero gradient accumulators) and then Stage A of the next iteration, with
batch values lr = 1, hr = 2, generator parameter 1/2, discriminator
parameter 1/4 and the exact first Adam step as the update rule, leaves a
nonzero generator gradient accumulator immediately after the second
Stage A: the claim that it is zero after every Stage A is false. -/
theorem generator_grad_after_stage_a_nonzero :
    (ganStageA adamFirstStep 1 2
      (ganIterNum adamFirstStep adamFirstStep 1 2
        { gw := 1/2, dw := 1/4, gGrad := 0, dGrad := 0 })).gGrad ≠ 0 := by
  simp only [ganIterNum, ganStageA, ganStageB, dmul, detachD, constD, bceGrad,
    vggGrad, addG, halfG, scaleG, adamFirstStep]
  norm_num [abs_of_nonneg]

/-- C5 (amended): provided gan_epochs is at least 2 (so that the scheduler
step size gan_epochs // 2 is nonzero), after exactly gan_epochs // 2
completed GAN epochs the learning rates of both GAN-phase optimizers equal
0.1 times gan_lr, and both equal gan_lr for every completed-epoch count
strictly below that boundary. -/
theorem gan_lr_schedule (ganEpochs : Nat) (ganLr : ℚ) (h : 2 ≤ ganEpochs) :
    discriminatorLrAfter ganEpochs ganLr (ganEpochs / 2) = 1 / 10 * ganLr ∧
    generatorLrAfter ganEpochs ganLr (ganEpochs / 2) = 1 / 10 * ganLr ∧
    ∀ k : Nat, k < ganEpochs / 2 →
      discriminatorLrAfter ganEpochs ganLr k = ganLr ∧
      generatorLrAfter ganEpochs ganLr k = ganLr := by
  have hdiv : ganEpochs / 2 / (ganEpochs / 2) = 1 := Nat.div_self (by omega)
  refine ⟨?_, ?_, ?_⟩
  · simp only [discriminatorLrAfter, stepLRAt, hdiv, pow_one]
    ring
  · simp only [generatorLrAfter, stepLRAt, hdiv, pow_one]
    ring
  · intro k hk
    have hz : k / (ganEpochs / 2) = 0 := Nat.div_eq_of_lt hk
    constructor <;> simp [discriminatorLrAfter, generatorLrAfter, stepLRAt, hz]

/-- Witness for C5 (amended) at the default configuration gan_epochs = 4000,
gan_lr = 1e-4. -/
theorem gan_lr_schedule_witness :
    2 ≤ 4000 ∧
    discriminatorLrAfter 4000 (1 / 10000) (4000 / 2) = 1 / 10 * (1 / 10000) ∧
    generatorLrAfter 4000 (1 / 10000) (4000 / 2) = 1 / 10 * (1 / 10000) :=
  ⟨by omega, (gan_lr_schedule 4000 (1 / 10000) (by omega)).1,
   (gan_lr_schedule 4000 (1 / 10000) (by omega)).2.1⟩

/-- C5 counterexample: with gan_epochs = 1 and gan_lr = 1 the boundary
gan_epochs // 2 is 0 completed epochs, and at that point both learning
rates are still gan_lr = 1, not 0.1 times gan_lr (torch only raises later,
inside the first scheduler step): the claim as stated fails for this
admissible configuration. -/
theorem gan_lr_schedule_cex :
    discriminatorLrAfter 1 1 (1 / 2) ≠ 1 / 10 * 1 ∧
    generatorLrAfter 1 1 (1 / 2) ≠ 1 / 10 * 1 := by
  constructor <;>
    · simp only [discriminatorLrAfter, generatorLrAfter, stepLRAt]
      norm_num

/-- Helper: the position of the discriminator scheduler step inside one GAN
epoch trace. -/
theorem ganEpochEvents_schedDisc_index (e : Nat) (dist saveGate : Bool) (k : Nat)
    (h : (ganEpochEvents e dist saveGate)[k]? = some PhaseEv.schedulerStepDisc) :
    k = (if dist = true then 1 else 0) + 1 := by
  cases dist <;>
    rcases k with _|_|_|_|_|_|_|_|_|_|_|k <;>
    simp only [ganEpochEvents] at h <;> (try split_ifs at h) <;>
    (try rcases k with _|_|k) <;> simp_all

/-- Helper: the position of the evaluation call inside one GAN epoch
trace. -/
theorem ganEpochEvents_evalTest_index (e : Nat) (dist saveGate : Bool) (k : Nat)
    (h : (ganEpochEvents e dist saveGate)[k]? = some (PhaseEv.evalTest e)) :
    k = (if dist = true then 1 else 0) + 3 := by
  cases dist <;>
    rcases k with _|_|_|_|_|_|_|_|_|_|_|k <;>
    simp only [ganEpochEvents] at h <;> (try split_ifs at h) <;>
    (try rcases k with _|_|k) <;> simp_all

/-- C7 counterexample: in the GAN epoch at index 0 (single process, save
gate passing) there is no point where the evaluation call precedes the
discriminator scheduler step; the schedulers are advanced immediately after
the training batches, before evaluation and before the checkpoint gate, so
the claimed order (train, then eval, then save, and only then schedulers)
is false. -/
theorem gan_epoch_eval_before_scheduler_cex :
    ¬ ∃ j k : Nat, j < k ∧
      (ganEpochEvents 0 false true)[j]? = some (PhaseEv.evalTest 0) ∧
      (ganEpochEvents 0 false true)[k]? = some PhaseEv.schedulerStepDisc := by
  rintro ⟨j, k, hjk, hj, hk⟩
  have h1 := ganEpochEvents_evalTest_index 0 false true j hj
  have h2 := ganEpochEvents_schedDisc_index 0 false true k hk
  simp at h1 h2
  omega

/-- C7 (amended): within every GAN-phase epoch the actual order is: the
training batches, then both learning-rate scheduler steps, then the
evaluation call, and only then the checkpoint-save gate; the scheduler
steps and the evaluation each occur exactly once per epoch. -/
theorem gan_epoch_order (e : Nat) (dist saveGate : Bool) :
    ∃ a b c d2 : Nat, a < b ∧ b < c ∧ c < d2 ∧
      (ganEpochEvents e dist saveGate)[a]? = some (PhaseEv.trainGanEpoch e) ∧
      (ganEpochEvents e dist saveGate)[b]? = some PhaseEv.schedulerStepDisc ∧
      (ganEpochEvents e dist saveGate)[c]? = some PhaseEv.schedulerStepGen ∧
      (ganEpochEvents e dist saveGate)[d2]? = some (PhaseEv.evalTest e) ∧
      (saveGate = true → ∃ p q : Nat, d2 < p ∧ p < q ∧
        (ganEpochEvents e dist saveGate)[p]? =
          some (PhaseEv.saveCkpt (CkPath.discEpoch e) (e + 1)) ∧
        (ganEpochEvents e dist saveGate)[q]? =
          some (PhaseEv.saveCkpt (CkPath.genEpoch e) (e + 1))) ∧
      (∀ k : Nat,
        (ganEpochEvents e dist saveGate)[k]? = some PhaseEv.schedulerStepDisc →
        k = b) ∧
      (∀ k : Nat,
        (ganEpochEvents e dist saveGate)[k]? = some (PhaseEv.evalTest e) →
        k = d2) := by
  cases dist
  · refine ⟨0, 1, 2, 3, by omega, by omega, by omega, rfl, rfl, rfl, rfl, ?_, ?_, ?_⟩
    · intro hgate
      cases saveGate
      · exact absurd hgate (by simp)
      · exact ⟨8, 9, by omega, by omega, rfl, rfl⟩
    · intro k hk
      simpa using ganEpochEvents_schedDisc_index e false saveGate k hk
    · intro k hk
      simpa using ganEpochEvents_evalTest_index e false saveGate k hk
  · refine ⟨1, 2, 3, 4, by omega, by omega, by omega, rfl, rfl, rfl, rfl, ?_, ?_, ?_⟩
    · intro hgate
      cases saveGate
      · exact absurd hgate (by simp)
      · exact ⟨9, 10, by omega, by omega, rfl, rfl⟩
    · intro k hk
      simpa using ganEpochEvents_schedDisc_index e true saveGate k hk
    · intro k hk
      simpa using ganEpochEvents_evalTest_index e true saveGate k hk

/-- Witness for C7 (amended) at epoch 0, single process, save gate
passing. -/
theorem gan_epoch_order_witness :
    ∃ a b c d2 : Nat, a < b ∧ b < c ∧ c < d2 ∧
      (ganEpochEvents 0 false true)[a]? = some (PhaseEv.trainGanEpoch 0) ∧
      (ganEpochEvents 0 false true)[b]? = some PhaseEv.schedulerStepDisc ∧
      (ganEpochEvents 0 false true)[c]? = some PhaseEv.schedulerStepGen ∧
      (ganEpochEvents 0 false true)[d2]? = some (PhaseEv.evalTest 0) ∧
      (true = true → ∃ p q : Nat, d2 < p ∧ p < q ∧
        (ganEpochEvents 0 false true)[p]? =
          some (PhaseEv.saveCkpt (CkPath.discEpoch 0) (0 + 1)) ∧
        (ganEpochEvents 0 false true)[q]? =
          some (PhaseEv.saveCkpt (CkPath.genEpoch 0) (0 + 1))) ∧
      (∀ k : Nat,
        (ganEpochEvents 0 false true)[k]? = some PhaseEv.schedulerStepDisc →
        k = b) ∧
      (∀ k : Nat,
        (ganEpochEvents 0 false true)[k]? = some (PhaseEv.evalTest 0) →
        k = d2) :=
  gan_epoch_order 0 false true

/-- C4: at the end of every phase-1 epoch, after the gated save of the
just-trained generator, the driver unconditionally reloads the generator
from the fixed best-PSNR path; when no file exists at that path the epoch
(and hence the whole phase loop) aborts with an error naming that path, and
when the file exists the generator weights are replaced by its contents,
with the save preceding the reload in the epoch trace. -/
theorem psnr_epoch_best_reload (tr : Nat → Nat) (saveGate : Bool) (e n : Nat)
    (st : DriverSt) :
    (st.fs CkPath.psnrBest = none →
      psnrEpochStep tr saveGate e st = Except.error CkPath.psnrBest ∧
      psnrPhaseAux tr saveGate e (n + 1) st = Except.error CkPath.psnrBest) ∧
    (∀ w : Nat, st.fs CkPath.psnrBest = some w →
      ∃ (st1 : DriverSt) (evs : List PhaseEv),
        psnrEpochStep tr saveGate e st = Except.ok (st1, evs) ∧
        st1.genW = w ∧
        evs.getLast? = some (PhaseEv.loadGenerator CkPath.psnrBest) ∧
        (saveGate = true →
          evs[6]? = some (PhaseEv.saveCkpt (CkPath.psnrEpoch e) (e + 1)) ∧
          evs[7]? = some (PhaseEv.loadGenerator CkPath.psnrBest))) := by
  constructor
  · intro h
    have h1 : psnrEpochStep tr saveGate e st = Except.error CkPath.psnrBest := by
      unfold psnrEpochStep
      cases saveGate <;> simp_all
    exact ⟨h1, by simp [psnrPhaseAux, h1]⟩
  · intro w hw
    cases saveGate
    · refine ⟨{ genW := w, fs := st.fs },
        [PhaseEv.trainPsnrEpoch e, PhaseEv.evalTest e,
         PhaseEv.addTestScalar "Test/PSNR" (e + 1),
         PhaseEv.addTestScalar "Test/SSIM" (e + 1),
         PhaseEv.addTestScalar "Test/LPIPS" (e + 1),
         PhaseEv.addTestScalar "Test/GMSD" (e + 1),
         PhaseEv.loadGenerator CkPath.psnrBest], ?_, rfl, rfl, ?_⟩
      · unfold psnrEpochStep
        simp [hw]
      · intro hgate
        exact absurd hgate (by simp)
    · refine ⟨{ genW := w,
                fs := fun p =>
                  if p = CkPath.psnrEpoch e then some (tr st.genW) else st.fs p },
        [PhaseEv.trainPsnrEpoch e, PhaseEv.evalTest e,
         PhaseEv.addTestScalar "Test/PSNR" (e + 1),
         PhaseEv.addTestScalar "Test/SSIM" (e + 1),
         PhaseEv.addTestScalar "Test/LPIPS" (e + 1),
         PhaseEv.addTestScalar "Test/GMSD" (e + 1),
         PhaseEv.saveCkpt (CkPath.psnrEpoch e) (e + 1),
         PhaseEv.loadGenerator CkPath.psnrBest], ?_, rfl, rfl, ?_⟩
      · unfold psnrEpochStep
        simp [hw]
      · intro _
        exact ⟨rfl, rfl⟩

/-- Witness for C4: a run whose checkpoint filesystem has no file at the
best-PSNR path aborts in its first phase-1 epoch. -/
theorem psnr_epoch_best_reload_witness :
    psnrEpochStep (fun w => w) true 0 { genW := 0, fs := fun _ => none } =
      Except.error CkPath.psnrBest ∧
    psnrPhaseAux (fun w => w) true 0 1 { genW := 0, fs := fun _ => none } =
      Except.error CkPath.psnrBest :=
  (psnr_epoch_best_reload (fun w => w) true 0 0 { genW := 0, fs := fun _ => none }).1 rfl

/-- C9: when a phase-1 resume path is supplied but no file exists there, the
resume branch only logs a not-found message and returns the state unchanged
(no mutation of the generator weights, the optimizer state or the epoch
offset, and no abort). -/
theorem resume_psnr_missing (rp : String) (fs : String → Option Ckpt) (st : ResumeSt)
    (h1 : rp ≠ "") (h2 : fs rp = none) :
    resumePsnr rp fs st = (st, ["No checkpoint found at " ++ rp]) := by
  simp [resumePsnr, h1, h2]

/-- Witness for C9 at a concrete missing path and state. -/
theorem resume_psnr_missing_witness :
    resumePsnr "missing.pth" (fun _ => none)
      { start_psnr_epoch := 3, start_gan_epoch := 0, genW := 1, discW := 2,
        psnrOptSt := 4, discOptSt := 5, genOptSt := 6 } =
      ({ start_psnr_epoch := 3, start_gan_epoch := 0, genW := 1, discW := 2,
         psnrOptSt := 4, discOptSt := 5, genOptSt := 6 },
       ["No checkpoint found at " ++ "missing.pth"]) :=
  resume_psnr_missing "missing.pth" (fun _ => none) _ (by simp) rfl

/-- C10: when GAN resume paths are supplied and at least one of the two
files exists, the branch attempts both loads with no per-file skip: if the
discriminator path has no file the run aborts on it, if only the generator
path has no file the run aborts on it, and when both loads succeed the
start epoch is taken from the epoch field of the discriminator checkpoint
only. -/
theorem resume_gan_no_per_file_skip (rd rg : String) (fs : String → Option Ckpt)
    (st : ResumeSt) (hsup : rd ≠ "" ∨ rg ≠ "") (hex : fs rd ≠ none ∨ fs rg ≠ none) :
    (fs rd = none → resumeGan rd rg fs st = Except.error rd) ∧
    (∀ cd : Ckpt, fs rd = some cd → fs rg = none →
      resumeGan rd rg fs st = Except.error rg) ∧
    (∀ cd cg : Ckpt, fs rd = some cd → fs rg = some cg →
      resumeGan rd rg fs st = Except.ok
        ({ st with
            start_gan_epoch := cd.epoch,
            discW := cd.state_dict,
            discOptSt := cd.optimizer,
            genW := cg.state_dict,
            genOptSt := cg.optimizer },
         ["Loading checkpoint " ++ rd, "Loading checkpoint " ++ rg,
          "Loaded checkpoint " ++ rd, "Loaded checkpoint " ++ rg])) := by
  refine ⟨?_, ?_, ?_⟩
  · intro h
    rcases hex with h2 | h2
    · exact absurd h h2
    · simp [resumeGan, hsup, h, h2]
  · intro cd hcd hcg
    simp [resumeGan, hsup, hcd, hcg]
  · intro cd cg hcd hcg
    simp [resumeGan, hsup, hcd, hcg]

/-- Witness for C10: with only the discriminator checkpoint present the run
aborts on the generator path, and with both present the start epoch comes
from the discriminator checkpoint (epoch 5, not the generator one at
epoch 9). -/
theorem resume_gan_no_per_file_skip_witness :
    resumeGan "d.pth" "g.pth"
      (fun p => if p = "d.pth"
        then some { epoch := 5, arch := "vgg", state_dict := 7, optimizer := 8 }
        else none)
      { start_psnr_epoch := 0, start_gan_epoch := 0, genW := 1, discW := 2,
        psnrOptSt := 3, discOptSt := 4, genOptSt := 6 } = Except.error "g.pth" ∧
    resumeGan "d.pth" "g.pth"
      (fun p => if p = "d.pth"
        then some { epoch := 5, arch := "vgg", state_dict := 7, optimizer := 8 }
        else if p = "g.pth"
        then some { epoch := 9, arch := "srgan", state_dict := 11, optimizer := 12 }
        else none)
      { start_psnr_epoch := 0, start_gan_epoch := 0, genW := 1, discW := 2,
        psnrOptSt := 3, discOptSt := 4, genOptSt := 6 } = Except.ok
        ({ start_psnr_epoch := 0, start_gan_epoch := 5, genW := 11, discW := 7,
           psnrOptSt := 3, discOptSt := 8, genOptSt := 12 },
         ["Loading checkpoint " ++ "d.pth", "Loading checkpoint " ++ "g.pth",
          "Loaded checkpoint " ++ "d.pth", "Loaded checkpoint " ++ "g.pth"]) :=
  by
  constructor
  · exact (resume_gan_no_per_file_skip "d.pth" "g.pth"
      (fun p => if p = "d.pth"
        then some { epoch := 5, arch := "vgg", state_dict := 7, optimizer := 8 }
        else none)
      { start_psnr_epoch := 0, start_gan_epoch := 0, genW := 1, discW := 2,
        psnrOptSt := 3, discOptSt := 4, genOptSt := 6 }
      (Or.inl (by simp)) (Or.inl (by simp))).2.1
      { epoch := 5, arch := "vgg", state_dict := 7, optimizer := 8 }
      (by simp) (by simp)
  · exact (resume_gan_no_per_file_skip "d.pth" "g.pth"
      (fun p => if p = "d.pth"
        then some { epoch := 5, arch := "vgg", state_dict := 7, optimizer := 8 }
        else if p = "g.pth"
        then some { epoch := 9, arch := "srgan", state_dict := 11, optimizer := 12 }
        else none)
      { start_psnr_epoch := 0, start_gan_epoch := 0, genW := 1, discW := 2,
        psnrOptSt := 3, discOptSt := 4, genOptSt := 6 }
      (Or.inl (by simp)) (Or.inl (by simp))).2.2
      { epoch := 5, arch := "vgg", state_dict := 7, optimizer := 8 }
      { epoch := 9, arch := "srgan", state_dict := 11, optimizer := 12 }
      (by simp) (by simp)

end SRGAN
